import Mathlib

/-!
Verification of the sqlfluff rule core: the identifier-character rule
(`Rule_L057._eval` in `src/sqlfluff/rules/L057.py`) and the rule-set
evaluation protocol (`BaseRuleSet.evaluate` / `evaluate_chunkstring`,
exercised by `test/rules_base_test.py`).

Python strings are embedded as Lean `String`; `str.replace(c, "")` with a
one-character pattern and empty replacement is `pyStrip`, `str.isalnum()` is
`pyIsAlnum` (restricted to the ASCII alphanumerics the inputs use),
`s[1:-1]` is `pySlice1toNeg1`, and the fallible negative index `s[-1]`
surfaces as an `Except` error so that a Python `IndexError` is visible in
the model.
-/

/-- A parse-tree node as the rule sees it: a name and its raw source text. -/
structure Segment where
  name : String
  raw : String
deriving DecidableEq, Repr

/-- Dialect metadata: only the dialect name is consulted by the rule. -/
structure Dialect where
  name : String
deriving DecidableEq, Repr

/-- The evaluation context handed to `_eval`: the target segment, its
ancestor stack (root first, target excluded) and the dialect. -/
structure RuleContext where
  segment : Segment
  parent_stack : List Segment
  dialect : Dialect
deriving DecidableEq, Repr

/-- The configuration keywords of `Rule_L057`
(`config_keywords` in `L057.py`). -/
structure L057Config where
  quoted_identifiers_policy : String
  unquoted_identifiers_policy : String
  allow_space_in_identifier : Bool
deriving DecidableEq, Repr

/-- A lint result anchored at a segment (`LintResult(anchor=...)`). -/
structure LintResult where
  anchor : Segment
deriving DecidableEq, Repr

/-- A Python runtime error that evaluation can raise. -/
inductive EvalError where
  | indexError
deriving DecidableEq, Repr

/-- Python `s.replace(c, "")` for a single-character pattern: every
occurrence of `c` is removed. -/
def pyStrip (c : Char) (s : String) : String :=
  ⟨s.data.filter (fun x => x != c)⟩

/-- Python `s.isalnum()`: true iff `s` is non-empty and every character is
alphanumeric (the inputs in question are ASCII). -/
def pyIsAlnum (s : String) : Bool :=
  !s.data.isEmpty && s.data.all Char.isAlphanum

/-- Python `s[1:-1]`: drop the first and the last character. -/
def pySlice1toNeg1 (s : String) : String :=
  ⟨(s.data.drop 1).dropLast⟩

/-- Python `s[-1]`: the last character, absent when `s` is empty (where
Python raises `IndexError`). -/
def pyLastChar (s : String) : Option Char :=
  s.data.getLast?

/-- Python `s[:-1]`: drop the last character. -/
def pyDropLast (s : String) : String :=
  ⟨s.data.dropLast⟩

/-- Modelled from the spec: the policy resolver
`identifiers_policy_applicable`, imported by `L057.py` from
`sqlfluff.rules.L014`, whose file is not among the sources.  Per the spec
(sections 4.4 and 8) it is a pure function `(policy, parent_stack) → bool`
over the keywords `"none"`, `"all"`, `"aliases"`, `"column_aliases"` and
`"table_aliases"`: `"all"` is always applicable and `"none"` never, while
the alias policies look at whether the nearest relevant ancestor is an
alias-like clause, the column/table variants further distinguished by
whether the occurrence lies inside a from-clause. -/
def identifiers_policy_applicable (policy : String) (parent_stack : List Segment) : Bool :=
  if policy = "all" then true
  else if policy = "none" then false
  else
    let is_alias :=
      match parent_stack.getLast? with
      | some p =>
          p.name = "alias_expression" || p.name = "column_definition"
            || p.name = "with_compound_statement"
      | none => false
    let is_inside_from := parent_stack.any (fun p => p.name = "from_clause")
    if policy = "aliases" then is_alias
    else if policy = "column_aliases" then is_alias && !is_inside_from
    else if policy = "table_aliases" then is_alias && is_inside_from
    else false

/-- The quoted-identifier character check of `L057.py` (lines 88-97):
emit a result iff the policy applies and the identifier is neither
alphanumeric after removing underscores nor, when
`allow_space_in_identifier` is set, alphanumeric after removing
underscores and spaces. -/
def quotedResult (cfg : L057Config) (context : RuleContext) (identifier : String) :
    Option LintResult :=
  if identifiers_policy_applicable cfg.quoted_identifiers_policy context.parent_stack
      && !(pyIsAlnum (pyStrip '_' identifier)
           || (cfg.allow_space_in_identifier
               && pyIsAlnum (pyStrip ' ' (pyStrip '_' identifier)))) then
    some { anchor := context.segment }
  else
    none

/-- The evaluation `Rule_L057._eval` (lines 50-99 of `L057.py`).  Returns `.error` where
the Python code raises (the `identifier[-1]` access on line 84). -/
def Rule_L057._eval (cfg : L057Config) (context : RuleContext) :
    Except EvalError (Option LintResult) :=
  -- Exit early if not a single identifier.
  if context.segment.name ≠ "naked_identifier" ∧ context.segment.name ≠ "quoted_identifier" then
    Except.ok none
  else if context.segment.name = "naked_identifier" then
    -- Evaluate unquoted identifiers.
    if identifiers_policy_applicable cfg.unquoted_identifiers_policy context.parent_stack
        && !(pyIsAlnum (pyStrip '_' context.segment.raw)) then
      Except.ok (some { anchor := context.segment })
    else
      Except.ok none
  else
    -- Evaluate quoted identifiers: strip the quotes.
    let identifier := pySlice1toNeg1 context.segment.raw
    -- BigQuery table references allow dots and a trailing wildcard star;
    -- strip both out before testing the identifier.
    if context.dialect.name = "bigquery"
        ∧ context.parent_stack ≠ []
        ∧ context.parent_stack.getLast?.map Segment.name = some "TableReferenceSegment" then
      match pyLastChar identifier with
      | none => Except.error EvalError.indexError
      | some c =>
        let identifier := if c = '*' then pyDropLast identifier else identifier
        let identifier := pyStrip '.' identifier
        Except.ok (quotedResult cfg context identifier)
    else
      Except.ok (quotedResult cfg context identifier)

deriving instance DecidableEq for Except

example :
    Rule_L057._eval ⟨"all", "all", false⟩
      ⟨⟨"naked_identifier", "Number#"⟩, [], ⟨"ansi"⟩⟩ =
      Except.ok (some ⟨⟨"naked_identifier", "Number#"⟩⟩) := by decide

example :
    Rule_L057._eval ⟨"all", "all", false⟩
      ⟨⟨"naked_identifier", "Number_1"⟩, [], ⟨"ansi"⟩⟩ = Except.ok none := by decide

example :
    Rule_L057._eval ⟨"all", "all", false⟩
      ⟨⟨"quoted_identifier", "`my.table*`"⟩, [⟨"TableReferenceSegment", "t"⟩], ⟨"bigquery"⟩⟩ =
      Except.ok none := by decide

example :
    Rule_L057._eval ⟨"all", "all", false⟩
      ⟨⟨"quoted_identifier", "``"⟩, [⟨"TableReferenceSegment", "t"⟩], ⟨"bigquery"⟩⟩ =
      Except.error EvalError.indexError := by decide

/-- Python `s[:-1]` applied when the last character is `*`, otherwise the
string unchanged: the trailing-wildcard strip of the BigQuery branch. -/
def pyStripTrailingStar (s : String) : String :=
  match s.data.getLast? with
  | some c => if c = '*' then pyDropLast s else s
  | none => s

/-- The shared configuration used by the concrete checks: both policies
`"all"`, `allow_space_in_identifier` off. -/
def cfgAll : L057Config :=
  { quoted_identifiers_policy := "all"
    unquoted_identifiers_policy := "all"
    allow_space_in_identifier := false }

/-- The configuration `cfgAll` with `allow_space_in_identifier` on. -/
def cfgAllowSpace : L057Config :=
  { cfgAll with allow_space_in_identifier := true }

/-- On a naked identifier, `_eval` reduces to the unquoted branch. -/
theorem eval_of_naked (cfg : L057Config) (ctx : RuleContext)
    (h : ctx.segment.name = "naked_identifier") :
    Rule_L057._eval cfg ctx =
      Except.ok
        (if identifiers_policy_applicable cfg.unquoted_identifiers_policy ctx.parent_stack
            && !(pyIsAlnum (pyStrip '_' ctx.segment.raw)) then
          some { anchor := ctx.segment }
        else none) := by
  unfold Rule_L057._eval
  rw [if_neg (fun hc => hc.1 h), if_pos h]
  split <;> rfl

/-- On a quoted identifier outside the BigQuery table-reference context,
`_eval` reduces to the quoted check on the quote-stripped text. -/
theorem eval_of_quoted_general (cfg : L057Config) (ctx : RuleContext)
    (h : ctx.segment.name = "quoted_identifier")
    (hnb : ¬ (ctx.dialect.name = "bigquery"
              ∧ ctx.parent_stack ≠ []
              ∧ ctx.parent_stack.getLast?.map Segment.name = some "TableReferenceSegment")) :
    Rule_L057._eval cfg ctx =
      Except.ok (quotedResult cfg ctx (pySlice1toNeg1 ctx.segment.raw)) := by
  unfold Rule_L057._eval
  rw [if_neg (fun hc => hc.2 h), if_neg (fun hc => by rw [h] at hc; exact absurd hc (by decide))]
  simp only []
  rw [if_neg hnb]

/-- On a quoted identifier in the BigQuery table-reference context with a
non-empty quote-stripped text, `_eval` reduces to the quoted check on the
text with a trailing `*` and all dots removed. -/
theorem eval_of_quoted_bigquery (cfg : L057Config) (ctx : RuleContext)
    (h : ctx.segment.name = "quoted_identifier")
    (hbq : ctx.dialect.name = "bigquery")
    (hne : ctx.parent_stack ≠ [])
    (hanc : ctx.parent_stack.getLast?.map Segment.name = some "TableReferenceSegment")
    (c : Char) (hc : pyLastChar (pySlice1toNeg1 ctx.segment.raw) = some c) :
    Rule_L057._eval cfg ctx =
      Except.ok (quotedResult cfg ctx
        (pyStrip '.'
          (if c = '*' then pyDropLast (pySlice1toNeg1 ctx.segment.raw)
           else pySlice1toNeg1 ctx.segment.raw))) := by
  unfold Rule_L057._eval
  rw [if_neg (fun hc => hc.2 h), if_neg (fun hc => by rw [h] at hc; exact absurd hc (by decide))]
  simp only []
  rw [if_pos ⟨hbq, hne, hanc⟩, hc]

/-- On a quoted identifier in the BigQuery table-reference context with an
empty quote-stripped text, `_eval` raises (Python `IndexError`). -/
theorem eval_of_quoted_bigquery_empty (cfg : L057Config) (ctx : RuleContext)
    (h : ctx.segment.name = "quoted_identifier")
    (hbq : ctx.dialect.name = "bigquery")
    (hne : ctx.parent_stack ≠ [])
    (hanc : ctx.parent_stack.getLast?.map Segment.name = some "TableReferenceSegment")
    (hc : pyLastChar (pySlice1toNeg1 ctx.segment.raw) = none) :
    Rule_L057._eval cfg ctx = Except.error EvalError.indexError := by
  unfold Rule_L057._eval
  rw [if_neg (fun hc => hc.2 h), if_neg (fun hc => by rw [h] at hc; exact absurd hc (by decide))]
  simp only []
  rw [if_pos ⟨hbq, hne, hanc⟩, hc]

/-- The raw text `"Number#"` as an unquoted identifier. -/
def ctxNumberHash : RuleContext := ⟨⟨"naked_identifier", "Number#"⟩, [], ⟨"ansi"⟩⟩

/-- The raw text `"Number_1"` as an unquoted identifier. -/
def ctxNumber1 : RuleContext := ⟨⟨"naked_identifier", "Number_1"⟩, [], ⟨"ansi"⟩⟩

/-- The raw text `"[Greater>Than]"` as a quoted identifier. -/
def ctxGreaterThan : RuleContext := ⟨⟨"quoted_identifier", "[Greater>Than]"⟩, [], ⟨"tsql"⟩⟩

/-- The raw text `"[Internal_Space]"` as a quoted identifier. -/
def ctxInternalUnderscore : RuleContext :=
  ⟨⟨"quoted_identifier", "[Internal_Space]"⟩, [], ⟨"tsql"⟩⟩

/-- The raw text `"[Internal Space]"` as a quoted identifier. -/
def ctxInternalSpace : RuleContext := ⟨⟨"quoted_identifier", "[Internal Space]"⟩, [], ⟨"tsql"⟩⟩

/-- A back-tick quoted `a.b` under a BigQuery table reference. -/
def ctxBQDot : RuleContext :=
  ⟨⟨"quoted_identifier", "`a.b`"⟩, [⟨"TableReferenceSegment", "t"⟩], ⟨"bigquery"⟩⟩

/-- A back-tick quoted `my.table*` under a BigQuery table reference. -/
def ctxBQStar : RuleContext :=
  ⟨⟨"quoted_identifier", "`my.table*`"⟩, [⟨"TableReferenceSegment", "t"⟩], ⟨"bigquery"⟩⟩

/-- The same raw `my.table*` text outside any table-reference ancestor. -/
def ctxPlainStar : RuleContext := ⟨⟨"quoted_identifier", "`my.table*`"⟩, [], ⟨"ansi"⟩⟩

/-- A quoted identifier whose raw text is only the two quote characters,
under a BigQuery table reference. -/
def ctxEmptyQuoted : RuleContext :=
  ⟨⟨"quoted_identifier", "``"⟩, [⟨"TableReferenceSegment", "t"⟩], ⟨"bigquery"⟩⟩

/-- An unquoted identifier consisting solely of underscores. -/
def ctxUnderscores : RuleContext := ⟨⟨"naked_identifier", "___"⟩, [], ⟨"ansi"⟩⟩

/-- A segment that is no identifier at all. -/
def ctxKeyword : RuleContext := ⟨⟨"keyword", "SELECT#"⟩, [], ⟨"ansi"⟩⟩

/-- An unquoted identifier full of special characters. -/
def ctxHashNaked : RuleContext := ⟨⟨"naked_identifier", "###"⟩, [], ⟨"ansi"⟩⟩

/-- Both policies `"none"`. -/
def cfgNone : L057Config :=
  { quoted_identifiers_policy := "none"
    unquoted_identifiers_policy := "none"
    allow_space_in_identifier := false }

/-- C1: on a naked identifier with the unquoted policy applicable, `_eval`
emits a violation anchored at the segment iff the raw text with all
underscores removed is not entirely alphanumeric. -/
theorem c1_naked_identifier_violation_iff (cfg : L057Config) (ctx : RuleContext)
    (hname : ctx.segment.name = "naked_identifier")
    (hpol : identifiers_policy_applicable cfg.unquoted_identifiers_policy ctx.parent_stack
            = true) :
    Rule_L057._eval cfg ctx = Except.ok (some { anchor := ctx.segment }) ↔
      pyIsAlnum (pyStrip '_' ctx.segment.raw) = false := by
  rw [eval_of_naked cfg ctx hname, hpol]
  cases hX : pyIsAlnum (pyStrip '_' ctx.segment.raw) <;> simp

/-- Witness for C1: `"Number#"` yields a violation, `"Number_1"` does not. -/
theorem c1_witness :
    Rule_L057._eval cfgAll ctxNumberHash = Except.ok (some { anchor := ctxNumberHash.segment })
    ∧ Rule_L057._eval cfgAll ctxNumber1
        ≠ Except.ok (some { anchor := ctxNumber1.segment }) :=
  ⟨(c1_naked_identifier_violation_iff cfgAll ctxNumberHash rfl rfl).mpr (by decide),
   fun hv =>
     absurd ((c1_naked_identifier_violation_iff cfgAll ctxNumber1 rfl rfl).mp hv) (by decide)⟩

/-- C2 counterexample: in a BigQuery table-reference context the claimed
iff fails — the policy applies, the quote-stripped text `a.b` is not
alphanumeric after removing underscores and allow-space is off, yet no
violation is emitted (the dialect exception strips the dot first). -/
theorem c2_counterexample :
    ctxBQDot.segment.name = "quoted_identifier"
    ∧ identifiers_policy_applicable cfgAll.quoted_identifiers_policy ctxBQDot.parent_stack
        = true
    ∧ pyIsAlnum (pyStrip '_' (pySlice1toNeg1 ctxBQDot.segment.raw)) = false
    ∧ cfgAll.allow_space_in_identifier = false
    ∧ Rule_L057._eval cfgAll ctxBQDot = Except.ok none := by decide

/-- C2 (amended): on a quoted identifier with the quoted policy applicable,
provided the BigQuery table-reference exception does not apply, `_eval`
emits a violation iff the quote-stripped text is neither alphanumeric
after removing underscores nor — when `allow_space_in_identifier` is on —
alphanumeric after removing both underscores and spaces. -/
theorem c2_quoted_identifier_violation_iff (cfg : L057Config) (ctx : RuleContext)
    (hname : ctx.segment.name = "quoted_identifier")
    (hpol : identifiers_policy_applicable cfg.quoted_identifiers_policy ctx.parent_stack
            = true)
    (hnb : ¬ (ctx.dialect.name = "bigquery"
              ∧ ctx.parent_stack ≠ []
              ∧ ctx.parent_stack.getLast?.map Segment.name = some "TableReferenceSegment")) :
    Rule_L057._eval cfg ctx = Except.ok (some { anchor := ctx.segment }) ↔
      ¬ (pyIsAlnum (pyStrip '_' (pySlice1toNeg1 ctx.segment.raw)) = true
         ∨ (cfg.allow_space_in_identifier = true
            ∧ pyIsAlnum (pyStrip ' ' (pyStrip '_' (pySlice1toNeg1 ctx.segment.raw))) = true)) := by
  rw [eval_of_quoted_general cfg ctx hname hnb]
  unfold quotedResult
  rw [hpol]
  cases hX : pyIsAlnum (pyStrip '_' (pySlice1toNeg1 ctx.segment.raw)) <;>
    cases hS : cfg.allow_space_in_identifier <;>
      cases hY : pyIsAlnum (pyStrip ' ' (pyStrip '_' (pySlice1toNeg1 ctx.segment.raw))) <;>
        simp

/-- Witness for C2 (amended): `[Greater>Than]` ⇒ violation;
`[Internal_Space]` ⇒ none even with allow-space off; `[Internal Space]` ⇒
none with allow-space on, violation with allow-space off. -/
theorem c2_witness :
    Rule_L057._eval cfgAll ctxGreaterThan
        = Except.ok (some { anchor := ctxGreaterThan.segment })
    ∧ Rule_L057._eval cfgAll ctxInternalUnderscore
        ≠ Except.ok (some { anchor := ctxInternalUnderscore.segment })
    ∧ Rule_L057._eval cfgAllowSpace ctxInternalSpace
        ≠ Except.ok (some { anchor := ctxInternalSpace.segment })
    ∧ Rule_L057._eval cfgAll ctxInternalSpace
        = Except.ok (some { anchor := ctxInternalSpace.segment }) :=
  ⟨(c2_quoted_identifier_violation_iff cfgAll ctxGreaterThan rfl rfl (by decide)).mpr
     (by decide),
   fun hv =>
     absurd
       ((c2_quoted_identifier_violation_iff cfgAll ctxInternalUnderscore rfl rfl
           (by decide)).mp hv)
       (by decide),
   fun hv =>
     absurd
       ((c2_quoted_identifier_violation_iff cfgAllowSpace ctxInternalSpace rfl rfl
           (by decide)).mp hv)
       (by decide),
   (c2_quoted_identifier_violation_iff cfgAll ctxInternalSpace rfl rfl (by decide)).mpr
     (by decide)⟩

/-- C3: on a quoted identifier in BigQuery under a table-reference
ancestor with a non-empty quote-stripped text, `_eval` validates the text
with the trailing `*` and all dots removed; outside that dialect/ancestor
context no such stripping occurs.  Concretely, back-ticked `my.table*`
passes under a BigQuery table reference and fails outside it. -/
theorem c3_bigquery_table_reference_exception (cfg : L057Config) (ctx ctx2 : RuleContext)
    (hname : ctx.segment.name = "quoted_identifier")
    (hbq : ctx.dialect.name = "bigquery")
    (hanc : ctx.parent_stack.getLast?.map Segment.name = some "TableReferenceSegment")
    (hne : (pySlice1toNeg1 ctx.segment.raw).data ≠ [])
    (hname2 : ctx2.segment.name = "quoted_identifier")
    (hnb : ¬ (ctx2.dialect.name = "bigquery"
              ∧ ctx2.parent_stack ≠ []
              ∧ ctx2.parent_stack.getLast?.map Segment.name = some "TableReferenceSegment")) :
    Rule_L057._eval cfg ctx =
      Except.ok (quotedResult cfg ctx
        (pyStrip '.' (pyStripTrailingStar (pySlice1toNeg1 ctx.segment.raw))))
    ∧ Rule_L057._eval cfg ctx2 =
      Except.ok (quotedResult cfg ctx2 (pySlice1toNeg1 ctx2.segment.raw))
    ∧ Rule_L057._eval cfgAll ctxBQStar = Except.ok none
    ∧ Rule_L057._eval cfgAll ctxPlainStar
        = Except.ok (some { anchor := ctxPlainStar.segment }) := by
  refine ⟨?_, eval_of_quoted_general cfg ctx2 hname2 hnb, by decide, by decide⟩
  have hstack : ctx.parent_stack ≠ [] := by
    intro he
    rw [he] at hanc
    simp at hanc
  obtain ⟨c, hc⟩ : ∃ c, pyLastChar (pySlice1toNeg1 ctx.segment.raw) = some c := by
    cases hgl : (pySlice1toNeg1 ctx.segment.raw).data.getLast? with
    | none => exact absurd (List.getLast?_eq_none_iff.mp hgl) hne
    | some c => exact ⟨c, hgl⟩
  rw [eval_of_quoted_bigquery cfg ctx hname hbq hstack hanc c hc]
  have hts : pyStripTrailingStar (pySlice1toNeg1 ctx.segment.raw) =
      if c = '*' then pyDropLast (pySlice1toNeg1 ctx.segment.raw)
      else pySlice1toNeg1 ctx.segment.raw := by
    unfold pyStripTrailingStar
    rw [show (pySlice1toNeg1 ctx.segment.raw).data.getLast? = some c from hc]
  rw [hts]

/-- Witness for C3, at the back-ticked `my.table*` contexts. -/
theorem c3_witness :
    Rule_L057._eval cfgAll ctxBQStar =
      Except.ok (quotedResult cfgAll ctxBQStar
        (pyStrip '.' (pyStripTrailingStar (pySlice1toNeg1 ctxBQStar.segment.raw))))
    ∧ Rule_L057._eval cfgAll ctxPlainStar =
      Except.ok (quotedResult cfgAll ctxPlainStar (pySlice1toNeg1 ctxPlainStar.segment.raw))
    ∧ Rule_L057._eval cfgAll ctxBQStar = Except.ok none
    ∧ Rule_L057._eval cfgAll ctxPlainStar
        = Except.ok (some { anchor := ctxPlainStar.segment }) :=
  c3_bigquery_table_reference_exception cfgAll ctxBQStar ctxPlainStar rfl rfl (by decide)
    (by decide) rfl (by decide)

/-- C4: whichever branch applies, when the matching policy resolves as not
applicable over the parent stack, `_eval` never emits a violation,
whatever the raw text. -/
theorem c4_policy_inapplicable_no_violation (cfg : L057Config) (ctx : RuleContext)
    (res : LintResult)
    (h : (ctx.segment.name = "naked_identifier"
            ∧ identifiers_policy_applicable cfg.unquoted_identifiers_policy ctx.parent_stack
                = false)
         ∨ (ctx.segment.name = "quoted_identifier"
            ∧ identifiers_policy_applicable cfg.quoted_identifiers_policy ctx.parent_stack
                = false)) :
    Rule_L057._eval cfg ctx ≠ Except.ok (some res) := by
  rcases h with ⟨hname, hpol⟩ | ⟨hname, hpol⟩
  · rw [eval_of_naked cfg ctx hname, hpol]
    simp
  · by_cases hbq : ctx.dialect.name = "bigquery"
        ∧ ctx.parent_stack ≠ []
        ∧ ctx.parent_stack.getLast?.map Segment.name = some "TableReferenceSegment"
    · cases hc : pyLastChar (pySlice1toNeg1 ctx.segment.raw) with
      | none =>
        rw [eval_of_quoted_bigquery_empty cfg ctx hname hbq.1 hbq.2.1 hbq.2.2 hc]
        simp
      | some c =>
        rw [eval_of_quoted_bigquery cfg ctx hname hbq.1 hbq.2.1 hbq.2.2 c hc]
        simp [quotedResult, hpol]
    · rw [eval_of_quoted_general cfg ctx hname hbq]
      simp [quotedResult, hpol]

/-- Witness for C4: with policy `"none"`, `"###"` draws no violation. -/
theorem c4_witness :
    Rule_L057._eval cfgNone ctxHashNaked
      ≠ Except.ok (some { anchor := ctxHashNaked.segment }) :=
  c4_policy_inapplicable_no_violation cfgNone ctxHashNaked { anchor := ctxHashNaked.segment }
    (Or.inl ⟨rfl, rfl⟩)

/-- C5 (code bug): a quoted identifier whose raw text is only the two
quote characters, evaluated in BigQuery under a table-reference ancestor,
makes the Python code raise `IndexError` at `identifier[-1]` instead of
returning a result. -/
theorem c5_quoted_empty_identifier_raises :
    Rule_L057._eval cfgAll ctxEmptyQuoted = Except.error EvalError.indexError := by decide

/-- C8: `_eval` is deterministic — equal configuration and equal context
give equal results. -/
theorem c8_eval_deterministic (cfg cfg2 : L057Config) (ctx ctx2 : RuleContext)
    (hcfg : cfg = cfg2) (hctx : ctx = ctx2) :
    Rule_L057._eval cfg ctx = Rule_L057._eval cfg2 ctx2 := by
  rw [hcfg, hctx]

/-- Witness for C8, at the `"Number#"` context. -/
theorem c8_witness :
    Rule_L057._eval cfgAll ctxNumberHash = Rule_L057._eval cfgAll ctxNumberHash :=
  c8_eval_deterministic cfgAll cfgAll ctxNumberHash ctxNumberHash rfl rfl

/-- C9: a segment that is neither a naked nor a quoted identifier draws no
violation, whatever its raw text, stack, dialect or policies. -/
theorem c9_non_identifier_segment_no_violation (cfg : L057Config) (ctx : RuleContext)
    (h1 : ctx.segment.name ≠ "naked_identifier")
    (h2 : ctx.segment.name ≠ "quoted_identifier") :
    Rule_L057._eval cfg ctx = Except.ok none := by
  unfold Rule_L057._eval
  rw [if_pos ⟨h1, h2⟩]

/-- Witness for C9, at a keyword segment. -/
theorem c9_witness : Rule_L057._eval cfgAll ctxKeyword = Except.ok none :=
  c9_non_identifier_segment_no_violation cfgAll ctxKeyword (by decide) (by decide)

/-- C10: an unquoted identifier that is empty or all underscores draws a
violation when the unquoted policy applies, since stripping underscores
leaves the empty string, which does not count as alphanumeric. -/
theorem c10_underscores_only_violation (cfg : L057Config) (ctx : RuleContext)
    (hname : ctx.segment.name = "naked_identifier")
    (hpol : identifiers_policy_applicable cfg.unquoted_identifiers_policy ctx.parent_stack
            = true)
    (hund : ∀ ch ∈ ctx.segment.raw.data, ch = '_') :
    Rule_L057._eval cfg ctx = Except.ok (some { anchor := ctx.segment }) := by
  have hfil : ctx.segment.raw.data.filter (fun x => x != '_') = [] :=
    List.filter_eq_nil_iff.mpr (fun a ha => by simp [hund a ha])
  have hX : pyIsAlnum (pyStrip '_' ctx.segment.raw) = false := by
    unfold pyIsAlnum pyStrip
    rw [hfil]
    rfl
  rw [eval_of_naked cfg ctx hname, hpol, hX]
  rfl

/-- Witness for C10, at `"___"`. -/
theorem c10_witness :
    Rule_L057._eval cfgAll ctxUnderscores
      = Except.ok (some { anchor := ctxUnderscores.segment }) :=
  c10_underscores_only_violation cfgAll ctxUnderscores rfl rfl (by decide)

/-- A violation record: which chunk it was found on and the firing rule's
code (`RuleViolation` of `sqlfluff.rules.base`, whose file is not among
the sources; shape taken from the spec's data model and the accesses in
`test/rules_base_test.py`). -/
structure RuleViolation (α : Type) where
  chunk : α
  rule : String
deriving DecidableEq, Repr

/-- Modelled from the spec: a `BaseRule` of `sqlfluff.rules.base` (file
not among the sources).  Per the spec a rule is a stateless named check
whose `evaluate` is a pure function of the chunk; the tests show rules as
a `code` plus a boolean `eval_func` over the chunk. -/
structure BaseRule (α : Type) where
  code : String
  eval_func : α → Bool

/-- Modelled from the spec: `BaseRule.evaluate` returns a violation
anchored at the chunk when `eval_func` holds, otherwise none
(`test__rules__base__baserule_b`). -/
def BaseRule.evaluate (r : BaseRule α) (chunk : α) : Option (RuleViolation α) :=
  if r.eval_func chunk then some { chunk := chunk, rule := r.code } else none

/-- Modelled from the spec: `BaseRuleSet.evaluate` applies every rule of
the set, in declared order, to one chunk and collects the non-empty
results in rule order (spec 4.2). -/
def BaseRuleSet.evaluate (rules : List (BaseRule α)) (chunk : α) :
    List (RuleViolation α) :=
  match rules with
  | [] => []
  | r :: rest =>
    match r.evaluate chunk with
    | some v => v :: BaseRuleSet.evaluate rest chunk
    | none => BaseRuleSet.evaluate rest chunk

/-- Modelled from the spec: `BaseRuleSet.evaluate_chunkstring` applies
`evaluate` to each chunk in sequence order and concatenates the results
chunk by chunk (spec 4.2). -/
def BaseRuleSet.evaluate_chunkstring (rules : List (BaseRule α)) (chunks : List α) :
    List (RuleViolation α) :=
  match chunks with
  | [] => []
  | c :: rest => BaseRuleSet.evaluate rules c ++ BaseRuleSet.evaluate_chunkstring rules rest

/-- A positioned chunk (`PositionedChunk` of `sqlfluff.chunks`): content,
line, column and a tag. -/
structure PositionedChunk where
  chunk : String
  line : Int
  col : Int
  tag : String
deriving DecidableEq, Repr

/-- The always-firing test rule `TRuleA` over positioned chunks. -/
def pruleA : BaseRule PositionedChunk := { code := "TRuleA", eval_func := fun _ => true }

/-- The never-firing test rule `TRuleC` over positioned chunks. -/
def pruleC : BaseRule PositionedChunk := { code := "TRuleC", eval_func := fun _ => false }

/-- The test rule `TRuleB` over integer chunks: fires iff divisible by 6. -/
def truleB : BaseRule Int := { code := "TRuleB", eval_func := fun c => c % 6 == 0 }

/-- The chunk `PositionedChunk('foo', 1, 20, 'a')` of the chunkstring test. -/
def fooChunk : PositionedChunk := { chunk := "foo", line := 1, col := 20, tag := "a" }

/-- The chunk `PositionedChunk('bar', 1, 21, 'b')` of the chunkstring test. -/
def barChunk : PositionedChunk := { chunk := "bar", line := 1, col := 21, tag := "b" }

/-- Per-chunk evaluation is the in-order filter of the firing rules, each
mapped to its violation. -/
theorem BaseRuleSet.evaluate_eq_filter (rules : List (BaseRule α)) (chunk : α) :
    BaseRuleSet.evaluate rules chunk =
      (rules.filter (fun r => r.eval_func chunk)).map
        (fun r => { chunk := chunk, rule := r.code }) := by
  induction rules with
  | nil => rfl
  | cons r rest ih =>
    unfold BaseRuleSet.evaluate BaseRule.evaluate
    cases hf : r.eval_func chunk <;> simp [List.filter_cons, hf, ih]

/-- Per-chunk evaluation is also the `filterMap` of per-rule evaluation. -/
theorem BaseRuleSet.evaluate_eq_filterMap (rules : List (BaseRule α)) (chunk : α) :
    BaseRuleSet.evaluate rules chunk =
      rules.filterMap (fun r => r.evaluate chunk) := by
  induction rules with
  | nil => rfl
  | cons r rest ih =>
    unfold BaseRuleSet.evaluate
    cases hf : r.evaluate chunk <;> simp [List.filterMap_cons, hf, ih]

/-- A rule set evaluates a chunk to the empty list when no rule fires. -/
theorem BaseRuleSet.evaluate_eq_nil (rules : List (BaseRule α)) (chunk : α)
    (h : ∀ r ∈ rules, r.evaluate chunk = none) :
    BaseRuleSet.evaluate rules chunk = [] := by
  induction rules with
  | nil => rfl
  | cons r rest ih =>
    unfold BaseRuleSet.evaluate
    rw [h r (List.mem_cons_self r rest)]
    exact ih (fun q hq => h q (List.mem_cons_of_mem r hq))

/-- Chunkstring evaluation is the chunk-ordered concatenation of the
per-chunk evaluations. -/
theorem BaseRuleSet.evaluate_chunkstring_eq_flatten (rules : List (BaseRule α))
    (chunks : List α) :
    BaseRuleSet.evaluate_chunkstring rules chunks =
      (chunks.map (BaseRuleSet.evaluate rules)).flatten := by
  induction chunks with
  | nil => rfl
  | cons c rest ih =>
    unfold BaseRuleSet.evaluate_chunkstring
    rw [List.map_cons, List.flatten_cons, ih]

/-- Every violation produced on a chunk carries that chunk. -/
theorem BaseRuleSet.evaluate_chunk_eq (rules : List (BaseRule α)) (c : α) :
    ∀ v ∈ BaseRuleSet.evaluate rules c, v.chunk = c := by
  intro v hv
  rw [BaseRuleSet.evaluate_eq_filter] at hv
  obtain ⟨r, _, rfl⟩ := List.mem_map.mp hv
  rfl

/-- Permuting the rules permutes each per-chunk result. -/
theorem BaseRuleSet.evaluate_perm (rules rules2 : List (BaseRule α))
    (hperm : rules.Perm rules2) (c : α) :
    (BaseRuleSet.evaluate rules c).Perm (BaseRuleSet.evaluate rules2 c) := by
  rw [BaseRuleSet.evaluate_eq_filterMap, BaseRuleSet.evaluate_eq_filterMap]
  exact hperm.filterMap _

/-- C6: `evaluate_chunkstring` concatenates the per-chunk results in chunk
order — every violation of an earlier chunk precedes every violation of a
later one and carries its own chunk — and permuting the rule order only
permutes results within each chunk, never across chunks. -/
theorem c6_evaluate_chunkstring_chunk_order {α : Type} (rules rules2 : List (BaseRule α))
    (chunks : List α) (hperm : rules.Perm rules2) :
    BaseRuleSet.evaluate_chunkstring rules chunks =
      (chunks.map (BaseRuleSet.evaluate rules)).flatten
    ∧ (∀ c ∈ chunks, ∀ v ∈ BaseRuleSet.evaluate rules c, v.chunk = c)
    ∧ (∀ c, (BaseRuleSet.evaluate rules c).Perm (BaseRuleSet.evaluate rules2 c))
    ∧ BaseRuleSet.evaluate_chunkstring rules2 chunks =
        (chunks.map (BaseRuleSet.evaluate rules2)).flatten :=
  ⟨BaseRuleSet.evaluate_chunkstring_eq_flatten rules chunks,
   fun c _ => BaseRuleSet.evaluate_chunk_eq rules c,
   fun c => BaseRuleSet.evaluate_perm rules rules2 hperm c,
   BaseRuleSet.evaluate_chunkstring_eq_flatten rules2 chunks⟩

/-- Witness for C6, at the two test rules over the `foo`/`bar` chunks of
the chunkstring test, with the rule order swapped. -/
theorem c6_witness :
    BaseRuleSet.evaluate_chunkstring [pruleA, pruleC] [fooChunk, barChunk] =
      ([fooChunk, barChunk].map (BaseRuleSet.evaluate [pruleA, pruleC])).flatten
    ∧ (BaseRuleSet.evaluate [pruleA, pruleC] fooChunk).Perm
        (BaseRuleSet.evaluate [pruleC, pruleA] fooChunk) :=
  ⟨(c6_evaluate_chunkstring_chunk_order [pruleA, pruleC] [pruleC, pruleA]
      [fooChunk, barChunk] (List.Perm.swap pruleC pruleA [])).1,
   (c6_evaluate_chunkstring_chunk_order [pruleA, pruleC] [pruleC, pruleA]
      [fooChunk, barChunk] (List.Perm.swap pruleC pruleA [])).2.2.1 fooChunk⟩

/-- C7: a rule set evaluates one chunk by applying every rule in declared
order and returning exactly the non-empty results in that order; when no
rule fires the result is the empty list, never an absent value. -/
theorem c7_ruleset_evaluate_rule_order {α : Type} (rules : List (BaseRule α)) (chunk : α) :
    BaseRuleSet.evaluate rules chunk =
      (rules.filter (fun r => r.eval_func chunk)).map
        (fun r => { chunk := chunk, rule := r.code })
    ∧ BaseRuleSet.evaluate rules chunk = rules.filterMap (fun r => r.evaluate chunk)
    ∧ ((∀ r ∈ rules, r.evaluate chunk = none) → BaseRuleSet.evaluate rules chunk = []) :=
  ⟨BaseRuleSet.evaluate_eq_filter rules chunk,
   BaseRuleSet.evaluate_eq_filterMap rules chunk,
   BaseRuleSet.evaluate_eq_nil rules chunk⟩

/-- Witness for C7: over `[TRuleA, TRuleC]` the single firing rule is
`TRuleA` in place, and `TRuleB` alone on 37 gives the empty list. -/
theorem c7_witness :
    BaseRuleSet.evaluate [pruleA, pruleC] fooChunk =
      (([pruleA, pruleC].filter (fun r => r.eval_func fooChunk)).map
        (fun r => { chunk := fooChunk, rule := r.code }))
    ∧ BaseRuleSet.evaluate [truleB] (37 : Int) = [] :=
  ⟨(c7_ruleset_evaluate_rule_order [pruleA, pruleC] fooChunk).1,
   (c7_ruleset_evaluate_rule_order [truleB] (37 : Int)).2.2 (by decide)⟩
